import Mathlib

/-!
Verification of the Rufus web-data-extraction pipeline.

This file gives a shallow embedding of the relevance-guided crawl loop of
the Rufus repository (client.py, core/crawler.py, core/synthesizer.py,
ai/engine.py) and proves properties of it. Python floats are modelled as
rationals, Python exceptions as an explicit error type threaded through
Except, and the external collaborators (HTTP fetching, the sklearn TF-IDF
vectorizer, the LLM backend) as oracle functions supplied to the loop, which
matches the constructor-injection design of the source. Wall-clock
timestamps (datetime.now) are external and omitted from the records.
-/

namespace Rufus

/-- Python exceptions that the embedded code can raise. -/
inductive PyErr where
  | fetchError (url : String)
  | typeError (msg : String)
  | zeroDivisionError
  | valueError (msg : String)
  | attributeError (obj meth : String)
  | extractionError (url : String)
  | otherError (msg : String)
deriving DecidableEq

/-- Tokenizer state machine for the argument-free Python str.split:
split on runs of whitespace, with no empty tokens.  The first argument is
the reversed current token. -/
def pyTokensAux : List Char → List Char → List (List Char)
  | cur, [] => if cur = [] then [] else [cur.reverse]
  | cur, c :: cs =>
    if c.isWhitespace then
      if cur = [] then pyTokensAux [] cs else cur.reverse :: pyTokensAux [] cs
    else pyTokensAux (c :: cur) cs

/-- Python content.split() with no separator argument. -/
def pySplit (s : String) : List String :=
  (pyTokensAux [] s.data).map List.asString

/-- Python s[:n] on a string (character slice). -/
def pySlice (s : String) (n : Nat) : String :=
  (s.data.take n).asString

/-- Line 92 of ai/engine.py:
len(set(content.split())) / len(content.split()).
Python raises ZeroDivisionError when the denominator is zero; the source has
no guard for that case. -/
def informationDensity (content : String) : Except PyErr ℚ :=
  let toks := pySplit content
  if toks.length = 0 then Except.error PyErr.zeroDivisionError
  else Except.ok ((toks.dedup.length : ℚ) / (toks.length : ℚ))

/-- Indexing a Python str with a str key, as in analysis["relevance"] where
analysis is the text of the LLM response: always a TypeError. -/
def strGetItemStr (s key : String) : Except PyErr String :=
  Except.error (PyErr.typeError "string indices must be integers")

/-- Lines 178-187 of ai/engine.py: depth_penalty = 1 / (1 + depth);
return relevance * depth_penalty. -/
def calculateExplorationPriority (relevance : ℚ) (depth : Nat) : ℚ :=
  let depthPenalty : ℚ := 1 / (1 + (depth : ℚ))
  relevance * depthPenalty

/-- The analysis PromptTemplate of RufusAIEngine, instantiated at its two
slots (the surrounding instruction text is abbreviated; the slot order and
the truncation of the content argument are as in the source). -/
def analysisPrompt (content query : String) : String :=
  "Analyze the following web content in relation to the search query. Content: "
    ++ content ++ " Query: " ++ query ++ " Format your response as JSON."

/-- A content-relevance analysis, ai/engine.py lines 10-16. -/
structure ContentScore where
  relevance_score : ℚ
  topic_match : ℚ
  information_density : ℚ
  url : String
  summary : String
deriving DecidableEq

/-- External collaborators of RufusAIEngine: the sklearn TF-IDF cosine
similarity of a two-document fit (used both for ml_relevance_score and for
topic_match, which run the same computation on the same two texts), the LLM
generation call, and the float() conversion of a string. -/
structure EngineOracle where
  tfidfSim : String → String → Except PyErr ℚ
  agenerate : String → Except PyErr String
  pyFloat : String → Except PyErr ℚ

/-- RufusAIEngine.analyze_content_relevance, ai/engine.py lines 70-105.
The try/except of the source logs and re-raises, so it is the identity on
the error value.  The steps are in source order: TF-IDF scoring, the LLM
call, information density, topic match, then the construction of the
ContentScore whose first keyword argument evaluates
float(analysis["relevance"]) on the response text, a string. -/
def analyzeContentRelevance (oracle : EngineOracle) (maxTokens : Nat)
    (content query url : String) : Except PyErr ContentScore := do
  let mlRelevanceScore ← oracle.tfidfSim content query
  let analysis ← oracle.agenerate (analysisPrompt (pySlice content maxTokens) query)
  let infoDensity ← informationDensity content
  let topicMatch ← oracle.tfidfSim content query
  let relText ← strGetItemStr analysis "relevance"
  let relValue ← oracle.pyFloat relText
  let summary ← strGetItemStr analysis "key_information"
  Except.ok
    { relevance_score := (mlRelevanceScore + relValue) / 2
      topic_match := topicMatch
      information_density := infoDensity
      url := url
      summary := summary }

/-- A search result appended by RufusClient.scrape on acceptance,
client.py lines 17-24 and 104-113.  The metadata mapping holds exactly
topic_match and information_density; the timestamp is external clock state
and is omitted. -/
structure SearchResult where
  url : String
  content : String
  relevance_score : ℚ
  topic_match : ℚ
  information_density : ℚ
deriving DecidableEq

/-- The dictionary returned by WebCrawler.crawl, core/crawler.py lines
44-49, restricted to the fields the loop consumes (content and links; the
structured_data mapping is carried opaquely by the collaborators). -/
structure CrawlPage where
  content : String
  links : List String
deriving DecidableEq

/-- One entry of the list returned by suggest_navigation_paths; the client
reads the url and relevance_score keys, client.py lines 123-126. -/
structure NavSuggestion where
  url : String
  text : String
  relevance_score : ℚ
  exploration_priority : ℚ
deriving DecidableEq

/-- A synthesized output document, core/synthesizer.py lines 63-84,
without the datetime.now timestamp. -/
structure RagDocument where
  url : String
  content : String
  relevance_score : ℚ
  source : String
  depth : Nat
  parent_url : String
deriving DecidableEq

/-- DocumentSynthesizer._process_results, core/synthesizer.py lines 48-61:
keep a result when the fingerprint of its content has not been seen.  The
Python content fingerprint (hash of the content string) is modelled by the
content string itself.  The first argument is the seen_content set. -/
def processResultsAux : List String → List SearchResult → List SearchResult
  | _, [] => []
  | seen, r :: rest =>
    if r.content ∈ seen then processResultsAux seen rest
    else r :: processResultsAux (r.content :: seen) rest

/-- DocumentSynthesizer._process_results with the empty seen_content set. -/
def processResults (results : List SearchResult) : List SearchResult :=
  processResultsAux [] results

/-- DocumentSynthesizer._structure_documents on one record, filling the
defaulted fields exactly as result.get does on a record with no depth and
no parent_url key. -/
def structureDocument (r : SearchResult) : RagDocument :=
  { url := r.url
    content := r.content
    relevance_score := r.relevance_score
    source := "web"
    depth := 0
    parent_url := "" }

/-- Python format.lower() (character-wise lowering of the string). -/
def pyLower (s : String) : String :=
  (s.data.map Char.toLower).asString

/-- The value a successful DocumentSynthesizer.synthesize would return:
a record list for the json branch or a rendered string otherwise. -/
inductive SynthOutput where
  | jsonDocs (docs : List RagDocument)
  | renderedText (s : String)
deriving DecidableEq

/-- DocumentSynthesizer.synthesize, core/synthesizer.py lines 12-46.
After deduplication and structuring, the json, markdown and text branches
call self._format_json, self._format_markdown and self._format_text, none
of which is defined anywhere in the class, so each branch raises
AttributeError at the attribute lookup; any other format name raises
ValueError.  The try/except logs and re-raises. -/
def synthesize (results : List SearchResult) (format : String) :
    Except PyErr SynthOutput :=
  let processed := processResults results
  let _documents := processed.map structureDocument
  if pyLower format = "json" then
    Except.error (PyErr.attributeError "DocumentSynthesizer" "_format_json")
  else if pyLower format = "markdown" then
    Except.error (PyErr.attributeError "DocumentSynthesizer" "_format_markdown")
  else if pyLower format = "text" then
    Except.error (PyErr.attributeError "DocumentSynthesizer" "_format_text")
  else
    Except.error (PyErr.valueError ("Unsupported format: " ++ format))

/-- The collaborators the crawl loop of RufusClient.scrape calls through:
WebCrawler.crawl, ContentExtractor.extract, the engine scoring call, the
crawler get_links attribute call (given the links state of the crawler at
that moment) and suggest_navigation_paths.  Each may raise. -/
structure ScrapeEnv where
  crawl : String → Except PyErr CrawlPage
  extract : CrawlPage → String → Except PyErr String
  analyze : String → String → String → Except PyErr ContentScore
  getLinks : List String → Except PyErr (List String)
  suggest : String → List String → String → Except PyErr (List NavSuggestion)

/-- WebCrawler defines no get_links method (core/crawler.py lines 11-141),
so the call self.crawler.get_links() at client.py line 118 raises
AttributeError at the attribute lookup. -/
def getLinksActual : List String → Except PyErr (List String) :=
  fun _ => Except.error (PyErr.attributeError "WebCrawler" "get_links")

/-- Ghost instrumentation of one crawl run: the urls passed to
WebCrawler.crawl, in call order, and the urls of the pages appended to the
result list, in order. -/
structure RunLog where
  fetched : List String
  accepted : List String
deriving DecidableEq

/-- The loop state of RufusClient.scrape at loop exit or abort: the result
list, the visited set (as the list of its elements in insertion order), the
remaining frontier and the run log. -/
structure LoopState where
  results : List SearchResult
  visited : List String
  frontier : List String
  log : RunLog
deriving DecidableEq

/-- The while loop of RufusClient.scrape, client.py lines 81-126.
Runs while the frontier is nonempty and the visited count is below
max_pages; pops the head of the frontier, skips it when visited, otherwise
fetches it (a fetch failure propagates: the only except handler wraps the
whole loop and re-raises), marks it visited, extracts and scores it, and on
a score at or above min_relevance appends the result and enqueues the
suggested urls that are unvisited and score strictly above min_relevance.
The second component is the exception aborting the loop, when there is
one. -/
def crawlLoop (env : ScrapeEnv) (instructions : String) (maxPages : Nat)
    (minRelevance : ℚ) (results : List SearchResult) (visited : List String)
    (frontier : List String) (log : RunLog) : LoopState × Option PyErr :=
  match frontier with
  | [] => (⟨results, visited, [], log⟩, none)
  | current :: rest =>
    if h : visited.length < maxPages then
      if current ∈ visited then
        crawlLoop env instructions maxPages minRelevance results visited rest log
      else
        match env.crawl current with
        | Except.error e =>
          (⟨results, visited, rest, ⟨log.fetched ++ [current], log.accepted⟩⟩, some e)
        | Except.ok page =>
          match env.extract page current with
          | Except.error e =>
            (⟨results, visited ++ [current], rest,
              ⟨log.fetched ++ [current], log.accepted⟩⟩, some e)
          | Except.ok extracted =>
            match env.analyze extracted instructions current with
            | Except.error e =>
              (⟨results, visited ++ [current], rest,
                ⟨log.fetched ++ [current], log.accepted⟩⟩, some e)
            | Except.ok score =>
              if minRelevance ≤ score.relevance_score then
                match env.getLinks page.links with
                | Except.error e =>
                  (⟨results ++
                      [⟨current, extracted, score.relevance_score,
                        score.topic_match, score.information_density⟩],
                    visited ++ [current], rest,
                    ⟨log.fetched ++ [current], log.accepted ++ [current]⟩⟩, some e)
                | Except.ok links =>
                  match env.suggest extracted links instructions with
                  | Except.error e =>
                    (⟨results ++
                        [⟨current, extracted, score.relevance_score,
                          score.topic_match, score.information_density⟩],
                      visited ++ [current], rest,
                      ⟨log.fetched ++ [current], log.accepted ++ [current]⟩⟩, some e)
                  | Except.ok next =>
                    crawlLoop env instructions maxPages minRelevance
                      (results ++
                        [⟨current, extracted, score.relevance_score,
                          score.topic_match, score.information_density⟩])
                      (visited ++ [current])
                      (rest ++ (next.filter
                        (fun p => decide (p.url ∉ visited ++ [current]) &&
                          decide (minRelevance < p.relevance_score))).map
                        NavSuggestion.url)
                      ⟨log.fetched ++ [current], log.accepted ++ [current]⟩
              else
                crawlLoop env instructions maxPages minRelevance results
                  (visited ++ [current]) rest
                  ⟨log.fetched ++ [current], log.accepted⟩
    else (⟨results, visited, current :: rest, log⟩, none)
termination_by (maxPages - visited.length, frontier.length)
decreasing_by
  all_goals simp_wf
  · apply Prod.Lex.right
    omega
  · apply Prod.Lex.left
    omega
  · apply Prod.Lex.left
    omega

/-- RufusClient.scrape, client.py lines 54-148: run the loop from the
frontier holding the start url and the empty visited set, then synthesize.
An exception from the loop or from synthesize is logged by the outer
handler and re-raised.  The save step (file output) follows only a
successful synthesize.  The run log is returned alongside for
observability. -/
def scrape (env : ScrapeEnv) (url instructions : String) (maxPages : Nat)
    (minRelevance : ℚ) (outputFormat : String) :
    Except PyErr SynthOutput × RunLog :=
  match crawlLoop env instructions maxPages minRelevance [] [] [url] ⟨[], []⟩ with
  | (st, some e) => (Except.error e, st.log)
  | (st, none) =>
    match synthesize st.results outputFormat with
    | Except.error e => (Except.error e, st.log)
    | Except.ok docs => (Except.ok docs, st.log)

/-- asyncio.gather over one scrape task per seed url with
return_exceptions set: the list of per-task outcomes in task order,
client.py lines 160-164.  The runner argument is the per-seed scrape
call. -/
def gatherOutcomes (runner : String → Except PyErr (List RagDocument))
    (urls : List String) : List (Except PyErr (List RagDocument)) :=
  urls.map runner

/-- The collection loop of RufusClient.scrape_multiple, client.py lines
167-174: exceptions among the gathered outcomes are logged and dropped,
document lists are extended onto the accumulator. -/
def collectStep (docs : List RagDocument)
    (r : Except PyErr (List RagDocument)) : List RagDocument :=
  match r with
  | Except.ok ds => docs ++ ds
  | Except.error _ => docs

/-- RufusClient.scrape_multiple, client.py lines 151-174: gather the
per-seed outcomes and fold the collection loop over them, starting from the
empty document list.  The function is total: no outcome exception is
re-raised to the caller. -/
def scrapeMultiple (runner : String → Except PyErr (List RagDocument))
    (urls : List String) : List RagDocument :=
  (gatherOutcomes runner urls).foldl collectStep []

/-- Concrete run environment in which fetching the seed url raises: the
crawler raises on any network error (core/crawler.py lines 51-53, 61-63)
and the other collaborators respond normally. -/
def envFetchFail : ScrapeEnv :=
  { crawl := fun u => Except.error (PyErr.fetchError u)
    extract := fun page _ => Except.ok page.content
    analyze := fun _ _ u => Except.ok ⟨9/10, 4/5, 1/2, u, "summary"⟩
    getLinks := getLinksActual
    suggest := fun _ _ _ => Except.ok [] }

/-- Concrete engine collaborators that all respond normally: the TF-IDF
similarity is one half, the LLM returns a plain text response, float() on a
numeric string succeeds. -/
def oracleOk : EngineOracle :=
  { tfidfSim := fun _ _ => Except.ok (1/2)
    agenerate := fun _ => Except.ok "a textual analysis of the page"
    pyFloat := fun _ => Except.ok (4/5) }

/-- Concrete run environment whose scoring call is the real
analyze_content_relevance over the normally-responding collaborators. -/
def envEngineReal : ScrapeEnv :=
  { crawl := fun _ => Except.ok ⟨"some page text", []⟩
    extract := fun page _ => Except.ok page.content
    analyze := fun c q u => analyzeContentRelevance oracleOk 1000 c q u
    getLinks := getLinksActual
    suggest := fun _ _ _ => Except.ok [] }

/-- Concrete run environment in which the first page is fetched and scored
at nine tenths, above the seven-tenths threshold, so the client accepts it
and then evaluates self.crawler.get_links(). -/
def envAccept : ScrapeEnv :=
  { crawl := fun _ => Except.ok ⟨"<html>page</html>", ["https://a.example/l1"]⟩
    extract := fun page _ => Except.ok page.content
    analyze := fun _ _ u => Except.ok ⟨9/10, 4/5, 1/2, u, "summary"⟩
    getLinks := getLinksActual
    suggest := fun _ _ _ => Except.ok [] }

/-- Concrete run environment in which the first page is fetched and scored
at one half, below the seven-tenths threshold, so the loop completes with
no accepted page and synthesis is reached. -/
def envReject : ScrapeEnv :=
  { crawl := fun _ => Except.ok ⟨"<html>page</html>", []⟩
    extract := fun page _ => Except.ok page.content
    analyze := fun _ _ u => Except.ok ⟨1/2, 2/5, 1/2, u, "summary"⟩
    getLinks := getLinksActual
    suggest := fun _ _ _ => Except.ok [] }

/-- Concrete per-seed runner for the batch entry point: the first seed
raises a fetch error, any other seed produces one document. -/
def runnerSplit : String → Except PyErr (List RagDocument) :=
  fun u =>
    if u = "https://a.example/" then Except.error (PyErr.fetchError u)
    else Except.ok [⟨u, "doc content", 1, "web", 0, ""⟩]

/-- A concrete accepted page. -/
def pageX : SearchResult :=
  ⟨"https://site.example/a", "shared page text", 9/10, 4/5, 1/2⟩

/-- A second accepted page from a different url with byte-identical
extracted text. -/
def pageXDup : SearchResult :=
  ⟨"https://site.example/b", "shared page text", 3/4, 2/5, 1/2⟩

/-- Invariant of the crawl loop: when the visited count starts within the
budget and the fetch log starts no longer than, disjoint from nothing and
contained in the visited set, the final visited count and fetch count stay
within the budget and the fetch log stays duplicate-free.  Each fetch
happens only under the budget guard and only for an unvisited url, and a
successful fetch moves that url into the visited set. -/
theorem crawlLoop_visited_fetched_inv (env : ScrapeEnv) (instructions : String)
    (maxPages : Nat) (minRelevance : ℚ) :
    ∀ (results : List SearchResult) (visited frontier : List String) (log : RunLog),
      visited.length ≤ maxPages →
      log.fetched.length ≤ visited.length →
      log.fetched.Nodup →
      (∀ u ∈ log.fetched, u ∈ visited) →
      (crawlLoop env instructions maxPages minRelevance results visited frontier
        log).1.visited.length ≤ maxPages ∧
      (crawlLoop env instructions maxPages minRelevance results visited frontier
        log).1.log.fetched.length ≤ maxPages ∧
      (crawlLoop env instructions maxPages minRelevance results visited frontier
        log).1.log.fetched.Nodup := by
  intro results visited frontier log
  induction results, visited, frontier, log using
      crawlLoop.induct env instructions maxPages minRelevance with
  | case1 results visited log =>
    intro h1 h2 h3 h4
    rw [crawlLoop.eq_def]
    exact ⟨h1, le_trans h2 h1, h3⟩
  | case2 results visited log current rest hlt hmem ih =>
    intro h1 h2 h3 h4
    rw [crawlLoop.eq_def]
    simp only [dif_pos hlt, if_pos hmem]
    exact ih h1 h2 h3 h4
  | case3 results visited log current rest hlt hmem e hcrawl =>
    intro h1 h2 h3 h4
    rw [crawlLoop.eq_def]
    simp only [dif_pos hlt, if_neg hmem, hcrawl]
    refine ⟨h1, ?_, ?_⟩
    · simp only [List.length_append, List.length_cons, List.length_nil]
      omega
    · rw [List.nodup_append]
      refine ⟨h3, List.nodup_singleton current, ?_⟩
      intro u hu he
      rw [List.mem_singleton] at he
      subst he
      exact hmem (h4 u hu)
  | case4 results visited log current rest hlt hmem page hcrawl e hext =>
    intro h1 h2 h3 h4
    rw [crawlLoop.eq_def]
    simp only [dif_pos hlt, if_neg hmem, hcrawl, hext]
    refine ⟨?_, ?_, ?_⟩
    · simp only [List.length_append, List.length_cons, List.length_nil]
      omega
    · simp only [List.length_append, List.length_cons, List.length_nil]
      omega
    · rw [List.nodup_append]
      refine ⟨h3, List.nodup_singleton current, ?_⟩
      intro u hu he
      rw [List.mem_singleton] at he
      subst he
      exact hmem (h4 u hu)
  | case5 results visited log current rest hlt hmem page hcrawl extracted hext e hana =>
    intro h1 h2 h3 h4
    rw [crawlLoop.eq_def]
    simp only [dif_pos hlt, if_neg hmem, hcrawl, hext, hana]
    refine ⟨?_, ?_, ?_⟩
    · simp only [List.length_append, List.length_cons, List.length_nil]
      omega
    · simp only [List.length_append, List.length_cons, List.length_nil]
      omega
    · rw [List.nodup_append]
      refine ⟨h3, List.nodup_singleton current, ?_⟩
      intro u hu he
      rw [List.mem_singleton] at he
      subst he
      exact hmem (h4 u hu)
  | case6 results visited log current rest hlt hmem page hcrawl extracted hext
      score hana hrel e hlinks =>
    intro h1 h2 h3 h4
    rw [crawlLoop.eq_def]
    simp only [dif_pos hlt, if_neg hmem, hcrawl, hext, hana, if_pos hrel, hlinks]
    refine ⟨?_, ?_, ?_⟩
    · simp only [List.length_append, List.length_cons, List.length_nil]
      omega
    · simp only [List.length_append, List.length_cons, List.length_nil]
      omega
    · rw [List.nodup_append]
      refine ⟨h3, List.nodup_singleton current, ?_⟩
      intro u hu he
      rw [List.mem_singleton] at he
      subst he
      exact hmem (h4 u hu)
  | case7 results visited log current rest hlt hmem page hcrawl extracted hext
      score hana hrel links hlinks e hsugg =>
    intro h1 h2 h3 h4
    rw [crawlLoop.eq_def]
    simp only [dif_pos hlt, if_neg hmem, hcrawl, hext, hana, if_pos hrel,
      hlinks, hsugg]
    refine ⟨?_, ?_, ?_⟩
    · simp only [List.length_append, List.length_cons, List.length_nil]
      omega
    · simp only [List.length_append, List.length_cons, List.length_nil]
      omega
    · rw [List.nodup_append]
      refine ⟨h3, List.nodup_singleton current, ?_⟩
      intro u hu he
      rw [List.mem_singleton] at he
      subst he
      exact hmem (h4 u hu)
  | case8 results visited log current rest hlt hmem page hcrawl extracted hext
      score hana hrel links hlinks next hsugg ih =>
    intro h1 h2 h3 h4
    rw [crawlLoop.eq_def]
    simp only [dif_pos hlt, if_neg hmem, hcrawl, hext, hana, if_pos hrel,
      hlinks, hsugg]
    apply ih
    · simp only [List.length_append, List.length_cons, List.length_nil]
      omega
    · simp only [List.length_append, List.length_cons, List.length_nil]
      omega
    · rw [List.nodup_append]
      refine ⟨h3, List.nodup_singleton current, ?_⟩
      intro u hu he
      rw [List.mem_singleton] at he
      subst he
      exact hmem (h4 u hu)
    · intro u hu
      rcases List.mem_append.mp hu with h | h
      · exact List.mem_append_left _ (h4 u h)
      · exact List.mem_append_right _ h
  | case9 results visited log current rest hlt hmem page hcrawl extracted hext
      score hana hrel ih =>
    intro h1 h2 h3 h4
    rw [crawlLoop.eq_def]
    simp only [dif_pos hlt, if_neg hmem, hcrawl, hext, hana, if_neg hrel]
    apply ih
    · simp only [List.length_append, List.length_cons, List.length_nil]
      omega
    · simp only [List.length_append, List.length_cons, List.length_nil]
      omega
    · rw [List.nodup_append]
      refine ⟨h3, List.nodup_singleton current, ?_⟩
      intro u hu he
      rw [List.mem_singleton] at he
      subst he
      exact hmem (h4 u hu)
    · intro u hu
      rcases List.mem_append.mp hu with h | h
      · exact List.mem_append_left _ (h4 u h)
      · exact List.mem_append_right _ h
  | case10 results visited log current rest hlt =>
    intro h1 h2 h3 h4
    rw [crawlLoop.eq_def]
    simp only [dif_neg hlt]
    exact ⟨h1, le_trans h2 h1, h3⟩

/-- When every scoring call raises, the loop never appends a result and
never logs an acceptance: every iteration that reaches the scoring step
aborts there. -/
theorem crawlLoop_analyze_error_no_accept (env : ScrapeEnv)
    (instructions : String) (maxPages : Nat) (minRelevance : ℚ)
    (hA : ∀ c q u, ∃ e, env.analyze c q u = Except.error e) :
    ∀ (results : List SearchResult) (visited frontier : List String) (log : RunLog),
      (crawlLoop env instructions maxPages minRelevance results visited frontier
        log).1.results = results ∧
      (crawlLoop env instructions maxPages minRelevance results visited frontier
        log).1.log.accepted = log.accepted := by
  intro results visited frontier log
  induction results, visited, frontier, log using
      crawlLoop.induct env instructions maxPages minRelevance with
  | case1 results visited log =>
    rw [crawlLoop.eq_def]
    exact ⟨rfl, rfl⟩
  | case2 results visited log current rest hlt hmem ih =>
    rw [crawlLoop.eq_def]
    simp only [dif_pos hlt, if_pos hmem]
    exact ih
  | case3 results visited log current rest hlt hmem e hcrawl =>
    rw [crawlLoop.eq_def]
    simp [dif_pos hlt, if_neg hmem, hcrawl]
  | case4 results visited log current rest hlt hmem page hcrawl e hext =>
    rw [crawlLoop.eq_def]
    simp [dif_pos hlt, if_neg hmem, hcrawl, hext]
  | case5 results visited log current rest hlt hmem page hcrawl extracted hext e hana =>
    rw [crawlLoop.eq_def]
    simp [dif_pos hlt, if_neg hmem, hcrawl, hext, hana]
  | case6 results visited log current rest hlt hmem page hcrawl extracted hext
      score hana hrel e hlinks =>
    obtain ⟨e0, he0⟩ := hA extracted instructions current
    rw [hana] at he0
    exact absurd he0 (by simp)
  | case7 results visited log current rest hlt hmem page hcrawl extracted hext
      score hana hrel links hlinks e hsugg =>
    obtain ⟨e0, he0⟩ := hA extracted instructions current
    rw [hana] at he0
    exact absurd he0 (by simp)
  | case8 results visited log current rest hlt hmem page hcrawl extracted hext
      score hana hrel links hlinks next hsugg ih =>
    obtain ⟨e0, he0⟩ := hA extracted instructions current
    rw [hana] at he0
    exact absurd he0 (by simp)
  | case9 results visited log current rest hlt hmem page hcrawl extracted hext
      score hana hrel ih =>
    obtain ⟨e0, he0⟩ := hA extracted instructions current
    rw [hana] at he0
    exact absurd he0 (by simp)
  | case10 results visited log current rest hlt =>
    rw [crawlLoop.eq_def]
    simp [dif_neg hlt]

/-- Every call of the embedded synthesize raises: the three supported
format branches call formatter methods the class does not define, and any
other format name raises ValueError. -/
theorem synthesize_raises (results : List SearchResult) (format : String) :
    ∃ e, synthesize results format = Except.error e := by
  unfold synthesize
  split_ifs <;> exact ⟨_, rfl⟩

/-- The scoring call of the embedded engine always raises, whatever the
collaborators return: every path through analyze_content_relevance reaches
either a collaborator error, the unguarded division by zero, or the string
subscript TypeError. -/
theorem analyzeContentRelevance_raises (oracle : EngineOracle) (maxTokens : Nat)
    (content query url : String) :
    ∃ e, analyzeContentRelevance oracle maxTokens content query url =
      Except.error e := by
  unfold analyzeContentRelevance
  cases h1 : oracle.tfidfSim content query with
  | error e => exact ⟨e, rfl⟩
  | ok s =>
    cases h2 : oracle.agenerate (analysisPrompt (pySlice content maxTokens) query) with
    | error e => exact ⟨e, rfl⟩
    | ok txt =>
      cases h3 : informationDensity content with
      | error e => exact ⟨e, rfl⟩
      | ok q =>
        exact ⟨PyErr.typeError "string indices must be integers", rfl⟩

/-- The collection fold of scrape_multiple distributes over its
accumulator. -/
theorem foldl_collectStep_append (l : List (Except PyErr (List RagDocument))) :
    ∀ acc : List RagDocument,
      l.foldl collectStep acc = acc ++ l.foldl collectStep [] := by
  induction l with
  | nil => intro acc; simp
  | cons r rest ih =>
    intro acc
    cases r with
    | ok ds =>
      simp only [List.foldl_cons, collectStep, List.nil_append]
      rw [ih (acc ++ ds), ih ds, List.append_assoc]
    | error e =>
      simp only [List.foldl_cons, collectStep]
      exact ih acc

/-- The deduplication pass keeps at most one record per content value, and
keeps none whose content is already in the seen set. -/
theorem processResultsAux_content_nodup :
    ∀ (rs : List SearchResult) (seen : List String),
      ((processResultsAux seen rs).map SearchResult.content).Nodup ∧
      ∀ c, c ∈ (processResultsAux seen rs).map SearchResult.content → c ∉ seen := by
  intro rs
  induction rs with
  | nil => intro seen; simp [processResultsAux]
  | cons r rest ih =>
    intro seen
    by_cases h : r.content ∈ seen
    · rw [processResultsAux, if_pos h]
      exact ih seen
    · rw [processResultsAux, if_neg h]
      have hrec := ih (r.content :: seen)
      constructor
      · simp only [List.map_cons, List.nodup_cons]
        refine ⟨?_, hrec.1⟩
        intro hc
        exact hrec.2 r.content hc (List.mem_cons_self _ _)
      · intro c hc
        rcases List.mem_cons.mp hc with hc | hc
        · subst hc; exact h
        · intro hcseen
          exact hrec.2 c hc (List.mem_cons_of_mem _ hcseen)

/-- C4: for every crawl run with page budget maxPages, starting from the
initial state of scrape (empty visited set, frontier holding the seed), the
loop keeps the visited set within maxPages elements and passes at most
maxPages urls to the fetcher, because the loop guard requires the visited
count to be strictly below maxPages before any further page is
processed. -/
theorem crawl_bounded_by_max_pages (env : ScrapeEnv) (url instructions : String)
    (maxPages : Nat) (minRelevance : ℚ) :
    (crawlLoop env instructions maxPages minRelevance [] [] [url]
      ⟨[], []⟩).1.visited.length ≤ maxPages ∧
    (crawlLoop env instructions maxPages minRelevance [] [] [url]
      ⟨[], []⟩).1.log.fetched.length ≤ maxPages := by
  have h := crawlLoop_visited_fetched_inv env instructions maxPages minRelevance
    [] [] [url] ⟨[], []⟩ (by simp) (by simp) (by simp) (by simp)
  exact ⟨h.1, h.2.1⟩

/-- C5: within one crawl run, no url is passed to the fetcher twice: the
dequeued url is checked against the visited set before fetching and joins
the visited set when fetched, so the fetch log of a whole scrape run is
duplicate-free. -/
theorem scrape_never_fetches_twice (env : ScrapeEnv) (url instructions : String)
    (maxPages : Nat) (minRelevance : ℚ) (outputFormat : String) :
    (scrape env url instructions maxPages minRelevance outputFormat).2.fetched.Nodup := by
  have h := (crawlLoop_visited_fetched_inv env instructions maxPages minRelevance
    [] [] [url] ⟨[], []⟩ (by simp) (by simp) (by simp) (by simp)).2.2
  unfold scrape
  split
  next st e heq =>
    rw [heq] at h
    simpa using h
  next st heq =>
    split
    next e heq2 =>
      rw [heq] at h
      simpa using h
    next docs heq2 =>
      rw [heq] at h
      simpa using h

/-- C6 counterexample: at relevance zero the exploration priority is not
strictly decreasing in depth; depth zero and depth one give the same
priority, namely zero. -/
theorem exploration_priority_not_strict_at_zero :
    ¬ (calculateExplorationPriority 0 0 > calculateExplorationPriority 0 1) := by
  norm_num [calculateExplorationPriority]

/-- C6 amended: the exploration priority equals relevance divided by one
plus depth, and for every fixed positive relevance it is strictly
decreasing in depth (at relevance zero it is constantly zero, so the strict
chain of the original claim holds only for positive relevance). -/
theorem exploration_priority_decay (r : ℚ) (d : Nat) :
    calculateExplorationPriority r d = r / (1 + (d : ℚ)) ∧
    (0 < r →
      calculateExplorationPriority r (d + 1) < calculateExplorationPriority r d) := by
  constructor
  · unfold calculateExplorationPriority
    rw [mul_one_div]
  · intro hr
    unfold calculateExplorationPriority
    rw [mul_one_div, mul_one_div]
    have h1 : (0 : ℚ) < 1 + (d : ℚ) := by positivity
    have h2 : (1 : ℚ) + (d : ℚ) < 1 + ((d : ℚ) + 1) := by linarith
    push_cast
    exact div_lt_div_of_pos_left hr h1 h2

/-- C6 witness: at relevance one the priority strictly drops from depth
zero to depth one. -/
theorem exploration_priority_decay_witness :
    calculateExplorationPriority 1 (0 + 1) < calculateExplorationPriority 1 0 :=
  (exploration_priority_decay 1 0).2 (by norm_num)

/-- C7: the deduplication pass of the synthesizer keeps at most one record
per content value, and on the spec scenario of a page and a byte-identical
copy it keeps exactly the first-seen record; but the surrounding
synthesize call then raises AttributeError because the _format_json method
it invokes is not defined on the class, so no document list is ever
returned. -/
theorem synthesize_dedup_but_raises :
    (∀ rs : List SearchResult,
      ((processResults rs).map SearchResult.content).Nodup) ∧
    processResults [pageX, pageXDup] = [pageX] ∧
    synthesize [pageX, pageXDup] "json" =
      Except.error (PyErr.attributeError "DocumentSynthesizer" "_format_json") := by
  refine ⟨fun rs => (processResultsAux_content_nodup rs []).1, ?_, ?_⟩
  · simp [processResults, processResultsAux, pageX, pageXDup]
  · rfl

/-- C8 counterexample: on empty content the information-density expression
raises ZeroDivisionError instead of evaluating to zero; the computation is
not total. -/
theorem information_density_empty_raises :
    informationDensity "" = Except.error PyErr.zeroDivisionError := rfl

/-- C8 amended: for content with at least one whitespace-separated token
the information-density sub-score is the number of distinct tokens divided
by the total number of tokens, a value in the half-open interval from zero
exclusive to one inclusive; for token-free content the unguarded division
raises ZeroDivisionError. -/
theorem information_density_formula (content : String)
    (h : pySplit content ≠ []) :
    informationDensity content =
      Except.ok (((pySplit content).dedup.length : ℚ) /
        ((pySplit content).length : ℚ)) ∧
    ∃ q, informationDensity content = Except.ok q ∧ 0 < q ∧ q ≤ 1 := by
  have hlen : (pySplit content).length ≠ 0 := by
    intro hzero
    exact h (List.length_eq_zero.mp hzero)
  have heq : informationDensity content =
      Except.ok (((pySplit content).dedup.length : ℚ) /
        ((pySplit content).length : ℚ)) := by
    unfold informationDensity
    simp only [if_neg hlen]
  refine ⟨heq, _, heq, ?_, ?_⟩
  · apply div_pos
    · have hd : (pySplit content).dedup ≠ [] := by
        intro hnil
        rw [List.dedup_eq_nil] at hnil
        exact h hnil
      have : 0 < (pySplit content).dedup.length := List.length_pos.mpr hd
      exact_mod_cast this
    · have : 0 < (pySplit content).length := Nat.pos_of_ne_zero hlen
      exact_mod_cast this
  · rw [div_le_one (by exact_mod_cast Nat.pos_of_ne_zero hlen)]
    exact_mod_cast (List.dedup_sublist (pySplit content)).length_le

/-- C8 witness: on a three-token content with one repeated token the
sub-score evaluates to two thirds. -/
theorem information_density_formula_witness :
    informationDensity "hello world hello" =
      Except.ok (((pySplit "hello world hello").dedup.length : ℚ) /
        ((pySplit "hello world hello").length : ℚ)) ∧
    ∃ q, informationDensity "hello world hello" = Except.ok q ∧ 0 < q ∧ q ≤ 1 :=
  information_density_formula "hello world hello" (by decide)

/-- C10: scrape_multiple isolates per-seed failures: with any per-seed
runner, a seed whose crawl raises contributes nothing, the documents of
every other seed are kept in order in the flattened result, and the batch
call itself returns a plain list rather than re-raising. -/
theorem scrape_multiple_isolates_failures
    (runner : String → Except PyErr (List RagDocument))
    (before after : List String) (u : String) (e : PyErr)
    (h : runner u = Except.error e) :
    scrapeMultiple runner (before ++ u :: after) =
      scrapeMultiple runner before ++ scrapeMultiple runner after := by
  unfold scrapeMultiple gatherOutcomes
  rw [List.map_append, List.foldl_append, List.map_cons, List.foldl_cons, h]
  show List.foldl collectStep (collectStep _ _) _ = _
  rw [foldl_collectStep_append]
  simp [collectStep]

/-- C10 witness: with a runner whose first seed raises a fetch error, the
batch result equals the documents of the remaining seed alone. -/
theorem scrape_multiple_isolates_failures_witness :
    scrapeMultiple runnerSplit
        (([] : List String) ++ "https://a.example/" :: ["https://b.example/"]) =
      scrapeMultiple runnerSplit [] ++ scrapeMultiple runnerSplit ["https://b.example/"] :=
  scrape_multiple_isolates_failures runnerSplit [] ["https://b.example/"]
    "https://a.example/" (PyErr.fetchError "https://a.example/") rfl

/-- C1 counterexample: a fetch error on the first url is not caught at the
loop iteration; it escapes scrape as the raised exception of the whole
call, so a single failing url aborts the crawl instead of being skipped. -/
theorem fetch_error_escapes_scrape :
    (scrape envFetchFail "https://a.example/" "goal" 10 (7/10) "json").1 =
      Except.error (PyErr.fetchError "https://a.example/") := by
  norm_num [scrape, crawlLoop, envFetchFail]

/-- C1 amended: the only except handler wraps the whole loop and
re-raises, so a fetch error on the seed url is logged and re-raised,
aborting the crawl at that url: scrape raises the fetch error and no
further url of the frontier is ever fetched. -/
theorem scrape_aborts_on_seed_fetch_error (env : ScrapeEnv)
    (url instructions : String) (maxPages : Nat) (minRelevance : ℚ)
    (outputFormat : String) (e : PyErr) (hN : 0 < maxPages)
    (hc : env.crawl url = Except.error e) :
    scrape env url instructions maxPages minRelevance outputFormat =
      (Except.error e, ⟨[url], []⟩) := by
  simp [scrape, crawlLoop, hc, hN]

/-- C1 witness: a concrete aborted run with the fetch-failing
environment. -/
theorem scrape_aborts_on_seed_fetch_error_witness :
    scrape envFetchFail "https://seed.example/" "find pricing" 3 (7/10) "json" =
      (Except.error (PyErr.fetchError "https://seed.example/"),
        ⟨["https://seed.example/"], []⟩) :=
  scrape_aborts_on_seed_fetch_error envFetchFail "https://seed.example/"
    "find pricing" 3 (7/10) "json" (PyErr.fetchError "https://seed.example/")
    (by norm_num) rfl

/-- C2: when the TF-IDF fit and the LLM call return normally and the
content has at least one token (which it must have for the TF-IDF fit to
build a vocabulary), analyze_content_relevance raises the string-subscript
TypeError before any ContentScore is constructed; and with this engine
plugged into the loop, scrape never logs an accepted page and never
returns normally, so it never returns a non-empty document list. -/
theorem analyze_raises_type_error_and_no_results :
    (∀ (oracle : EngineOracle) (maxTokens : Nat) (content query url : String)
      (s : ℚ) (txt : String),
      oracle.tfidfSim content query = Except.ok s →
      oracle.agenerate (analysisPrompt (pySlice content maxTokens) query) =
        Except.ok txt →
      pySplit content ≠ [] →
      analyzeContentRelevance oracle maxTokens content query url =
        Except.error (PyErr.typeError "string indices must be integers")) ∧
    (∀ (oracle : EngineOracle) (maxTokens : Nat) (env : ScrapeEnv)
      (url instructions : String) (maxPages : Nat) (minRelevance : ℚ)
      (outputFormat : String),
      (∀ c q u, env.analyze c q u = analyzeContentRelevance oracle maxTokens c q u) →
      (scrape env url instructions maxPages minRelevance outputFormat).1.isOk = false ∧
      (scrape env url instructions maxPages minRelevance outputFormat).2.accepted = []) := by
  constructor
  · intro oracle maxTokens content query url s txt h1 h2 h3
    have hlen : ¬ (pySplit content).length = 0 := by
      intro hz
      exact h3 (List.length_eq_zero.mp hz)
    have hd : informationDensity content =
        Except.ok (((pySplit content).dedup.length : ℚ) /
          ((pySplit content).length : ℚ)) := by
      unfold informationDensity
      simp only [if_neg hlen]
    unfold analyzeContentRelevance
    rw [h1, h2, hd]
    rfl
  · intro oracle maxTokens env url instructions maxPages minRelevance outputFormat hEq
    have hA : ∀ c q u, ∃ e, env.analyze c q u = Except.error e := by
      intro c q u
      rw [hEq c q u]
      exact analyzeContentRelevance_raises oracle maxTokens c q u
    refine ⟨?_, ?_⟩
    · unfold scrape
      split
      next st e heq => rfl
      next st heq =>
        obtain ⟨e2, he2⟩ := synthesize_raises st.results outputFormat
        split
        next e3 heq3 => rfl
        next docs heq3 =>
          rw [he2] at heq3
          exact absurd heq3 (by simp)
    · have hacc := crawlLoop_analyze_error_no_accept env instructions maxPages
        minRelevance hA [] [] [url] ⟨[], []⟩
      unfold scrape
      split
      next st e heq =>
        rw [heq] at hacc
        simpa using hacc.2
      next st heq =>
        rw [heq] at hacc
        split
        next e3 heq3 => simpa using hacc.2
        next docs heq3 => simpa using hacc.2

/-- C2 witness: with collaborators that all respond normally, the scoring
call on a two-token content raises the TypeError, and the concrete run
over that engine accepts nothing and does not return normally. -/
theorem analyze_raises_type_error_and_no_results_witness :
    analyzeContentRelevance oracleOk 1000 "hello world" "goal" "https://a.example/" =
      Except.error (PyErr.typeError "string indices must be integers") ∧
    (scrape envEngineReal "https://a.example/" "goal" 5 (7/10) "json").1.isOk = false ∧
    (scrape envEngineReal "https://a.example/" "goal" 5 (7/10) "json").2.accepted = [] :=
  ⟨analyze_raises_type_error_and_no_results.1 oracleOk 1000 "hello world" "goal"
      "https://a.example/" (1/2) "a textual analysis of the page" rfl rfl
      (by decide),
    analyze_raises_type_error_and_no_results.2 oracleOk 1000 envEngineReal
      "https://a.example/" "goal" 5 (7/10) "json" (fun _ _ _ => rfl)⟩

/-- C3: in a run whose first page scores nine tenths, at or above the
seven-tenths threshold, the page is accepted and the loop then aborts with
AttributeError at the undefined crawler get_links method: the link ranker
is never invoked, nothing is enqueued (the final frontier is empty), and
the whole scrape raises instead of gating links by relevance. -/
theorem accepted_page_aborts_on_get_links :
    crawlLoop envAccept "goal" 10 (7/10) [] [] ["https://a.example/"] ⟨[], []⟩ =
      (⟨[⟨"https://a.example/", "<html>page</html>", 9/10, 4/5, 1/2⟩],
        ["https://a.example/"], [],
        ⟨["https://a.example/"], ["https://a.example/"]⟩⟩,
        some (PyErr.attributeError "WebCrawler" "get_links")) ∧
    scrape envAccept "https://a.example/" "goal" 10 (7/10) "json" =
      (Except.error (PyErr.attributeError "WebCrawler" "get_links"),
        ⟨["https://a.example/"], ["https://a.example/"]⟩) := by
  constructor <;> norm_num [scrape, crawlLoop, envAccept, getLinksActual]

/-- C9 counterexample: with an unsupported output format, the crawl work
happens first: the seed url is fetched (the fetch log is non-empty) and
only afterwards does synthesis raise the unsupported-format ValueError, so
the failure does not precede the crawling work. -/
theorem unsupported_format_after_crawl_work :
    scrape envReject "https://a.example/" "goal" 10 (7/10) "xml" =
      (Except.error (PyErr.valueError ("Unsupported format: " ++ "xml")),
        ⟨["https://a.example/"], []⟩) ∧
    (scrape envReject "https://a.example/" "goal" 10 (7/10) "xml").2.fetched ≠ [] := by
  have hloop : crawlLoop envReject "goal" 10 (7/10) [] [] ["https://a.example/"]
      ⟨[], []⟩ =
      (⟨[], ["https://a.example/"], [], ⟨["https://a.example/"], []⟩⟩, none) := by
    norm_num [crawlLoop, envReject]
  have hmain : scrape envReject "https://a.example/" "goal" 10 (7/10) "xml" =
      (Except.error (PyErr.valueError ("Unsupported format: " ++ "xml")),
        ⟨["https://a.example/"], []⟩) := by
    unfold scrape
    rw [hloop]
    rfl
  exact ⟨hmain, by rw [hmain]; simp⟩

/-- C9 amended: an unsupported output-format name never makes scrape
return documents, and whenever the crawl loop itself runs to completion
the error scrape raises is exactly the unsupported-format ValueError from
the synthesis stage, raised after the loop and before the file write. -/
theorem unsupported_format_fails_at_synthesis (env : ScrapeEnv)
    (url instructions : String) (maxPages : Nat) (minRelevance : ℚ) (fmt : String)
    (h1 : pyLower fmt ≠ "json") (h2 : pyLower fmt ≠ "markdown")
    (h3 : pyLower fmt ≠ "text") :
    (scrape env url instructions maxPages minRelevance fmt).1.isOk = false ∧
    (∀ st, crawlLoop env instructions maxPages minRelevance [] [] [url] ⟨[], []⟩ =
      (st, none) →
      (scrape env url instructions maxPages minRelevance fmt).1 =
        Except.error (PyErr.valueError ("Unsupported format: " ++ fmt))) := by
  have hsynth : ∀ rs, synthesize rs fmt =
      Except.error (PyErr.valueError ("Unsupported format: " ++ fmt)) := by
    intro rs
    unfold synthesize
    rw [if_neg h1, if_neg h2, if_neg h3]
  constructor
  · unfold scrape
    split
    next st e heq => rfl
    next st heq =>
      split
      next e3 heq3 => rfl
      next docs heq3 =>
        rw [hsynth st.results] at heq3
        exact absurd heq3 (by simp)
  · intro st hst
    unfold scrape
    rw [hst]
    simp [hsynth]

/-- C9 witness: the concrete below-threshold run with format xml completes
its loop and scrape raises the unsupported-format ValueError. -/
theorem unsupported_format_fails_at_synthesis_witness :
    (scrape envReject "https://a.example/" "goal" 10 (7/10) "xml").1.isOk = false ∧
    (scrape envReject "https://a.example/" "goal" 10 (7/10) "xml").1 =
      Except.error (PyErr.valueError ("Unsupported format: " ++ "xml")) := by
  have h := unsupported_format_fails_at_synthesis envReject "https://a.example/"
    "goal" 10 (7/10) "xml" (by decide) (by decide) (by decide)
  refine ⟨h.1, h.2 ⟨[], ["https://a.example/"], [], ⟨["https://a.example/"], []⟩⟩ ?_⟩
  norm_num [crawlLoop, envReject]

end Rufus
